import Mathlib

/-!
# Shader_2 / Shader_3_2 : uniform setters and geometry-rejecting loaders

A shallow embedding of `src/SFML/Graphics/opengl_2/Shader_2.cpp` and
`src/SFML/Graphics/opengl_3_2/Shader_3_2.cpp`.

Modelling choices

* `float` values are exact rationals (`ℚ`); rounding is outside the model.
* `m_shaderProgram` (an `unsigned int` handle) is a `Nat`, `GLint` / `int`
  values are `Int`, `std::size_t` is a `Nat` reduced modulo `2 ^ 64`.
* A `const Texture*` is the address of the texture object, a `Nat`.
* `std::map<int, const Texture*>` is an association list kept in key order.
* The OpenGL state touched by the setters is explicit: the program object
  currently in use, the uniform store of every program, and the sequence of
  OpenGL entry points called so far.
* `err()` is the list of messages written so far, one element per
  `std::endl`-terminated output statement.
* `ensureGlContext()` and the `glCheck` wrapper do not change any of the
  above and are left out.
* `glGetUniformLocationARB`, `getMaxTextureUnits()` and the loaders of the
  base class `sf::Shader` live outside the two translation units; they are
  parameters of the functions that call them.
-/

namespace SFML

/-! ## Data model -/

/-- Modelled from the spec: the enumeration `Shader::Type` of shader stages
(its declaration is in `Shader.hpp`); the class documentation lists vertex,
geometry and fragment shaders. -/
inductive ShaderType where
  | Vertex
  | Geometry
  | Fragment
  deriving DecidableEq, Repr

/-- The address of a `sf::Texture` object (the table stores `const Texture*`). -/
abbrev Texture := Nat

/-- Modelled from the spec: `sf::Color`, four 8-bit components. -/
structure Color where
  r : Fin 256
  g : Fin 256
  b : Fin 256
  a : Fin 256
  deriving DecidableEq, Repr

/-- Modelled from the spec: `sf::Transform`, of which only the 16 floats
returned by `getMatrix()` are used. -/
structure Transform where
  getMatrix : List ℚ
  deriving DecidableEq, Repr

/-- Modelled from the spec: `sf::Vector2f`. -/
structure Vector2f where
  x : ℚ
  y : ℚ
  deriving DecidableEq, Repr

/-- Modelled from the spec: `sf::Vector3f`. -/
structure Vector3f where
  x : ℚ
  y : ℚ
  z : ℚ
  deriving DecidableEq, Repr

/-- Modelled from the spec: the type `TextureTable` of `sf::Shader` (declared in
`Shader.hpp`), a mapping from uniform-location integers to texture
references, `std::map<int, const Texture*>`. -/
abbrev TextureTable := List (Int × Texture)

namespace TextureTable

/-- The call `m_textures.find(location)`: `none` stands for `end()`, `some t`
for an iterator to the entry `location -> t`. -/
def find : TextureTable → Int → Option Texture
  | [], _ => none
  | (k, v) :: rest, location => if k = location then some v else find rest location

/-- The call `m_textures.size()`. -/
def size (t : TextureTable) : Nat := t.length

/-- The statement `m_textures[location] = &texture`: assignment through
`operator[]`, which inserts the key at its place in key order when absent. -/
def assign : TextureTable → Int → Texture → TextureTable
  | [], location, texture => [(location, texture)]
  | (k, v) :: rest, location, texture =>
    if location < k then (location, texture) :: (k, v) :: rest
    else if k = location then (k, texture) :: rest
    else (k, v) :: assign rest location texture

/-- The statement `it->second = &texture` for the iterator returned by
`find(location)`: the entry found is overwritten in place. -/
def setSecond : TextureTable → Int → Texture → TextureTable
  | [], _, _ => []
  | (k, v) :: rest, location, texture =>
    if k = location then (k, texture) :: rest
    else (k, v) :: setSecond rest location texture

end TextureTable

/-- A value held by a uniform variable of a program object. -/
inductive UniformValue where
  | float1 (x : ℚ)
  | float2 (x y : ℚ)
  | float3 (x y z : ℚ)
  | float4 (x y z w : ℚ)
  | matrix4 (m : List ℚ)
  deriving DecidableEq, Repr

/-- The OpenGL entry points called by the setters. -/
inductive GLCall where
  | getHandle
  | useProgramObject (program : Nat)
  | getUniformLocation (program : Nat) (name : String)
  | uniform1f (location : Int) (x : ℚ)
  | uniform2f (location : Int) (x y : ℚ)
  | uniform3f (location : Int) (x y z : ℚ)
  | uniform4f (location : Int) (x y z w : ℚ)
  | uniformMatrix4fv (location : Int) (m : List ℚ)
  deriving DecidableEq, Repr

/-- Whether an OpenGL call writes a uniform variable. -/
def GLCall.isUniformWrite : GLCall → Bool
  | .uniform1f _ _ => true
  | .uniform2f _ _ _ => true
  | .uniform3f _ _ _ _ => true
  | .uniform4f _ _ _ _ _ => true
  | .uniformMatrix4fv _ _ => true
  | _ => false

/-- Modelled from the spec: the fields of `sf::Shader` (declared in
`Shader.hpp`) used by the two classes, namely the handle of the compiled
program, the location-to-texture table and the current-texture location;
with them the part of the OpenGL state the setters touch and the error
stream. -/
structure State where
  /-- The handle `m_shaderProgram`; `0` means no program. -/
  m_shaderProgram : Nat
  /-- The table `m_textures`. -/
  m_textures : TextureTable
  /-- The location `m_currentTexture`. -/
  m_currentTexture : Int
  /-- The program object in use (`GL_PROGRAM_OBJECT_ARB`). -/
  boundProgram : Nat
  /-- The uniform store: program, then location. -/
  uniforms : Nat → Int → Option UniformValue
  /-- The OpenGL calls made so far, oldest first. -/
  glCalls : List GLCall
  /-- The messages written to `err()` so far, oldest first. -/
  errLog : List String

/-! ## The environment: `err()` and the OpenGL entry points -/

/-- One output statement `err() << msg << std::endl`. -/
def err (msg : String) (s : State) : State :=
  { s with errLog := s.errLog ++ [msg] }

/-- The query `glGetHandleARB(GL_PROGRAM_OBJECT_ARB)`. -/
def glGetHandleARB (s : State) : Nat × State :=
  (s.boundProgram, { s with glCalls := s.glCalls ++ [GLCall.getHandle] })

/-- The call `glUseProgramObjectARB(program)`. -/
def glUseProgramObjectARB (program : Nat) (s : State) : State :=
  { s with boundProgram := program,
           glCalls := s.glCalls ++ [GLCall.useProgramObject program] }

/-- The query `glGetUniformLocationARB(program, name)`; the answer comes from
the linked program, given here by `locate`. -/
def glGetUniformLocationARB (locate : Nat → String → Int) (program : Nat)
    (name : String) (s : State) : Int × State :=
  (locate program name,
   { s with glCalls := s.glCalls ++ [GLCall.getUniformLocation program name] })

/-- A uniform write: the variable at `location` of the program in use gets
the value `v`. -/
def writeUniform (location : Int) (v : UniformValue) (call : GLCall) (s : State) : State :=
  { s with
    uniforms := fun p l =>
      if p = s.boundProgram ∧ l = location then some v else s.uniforms p l,
    glCalls := s.glCalls ++ [call] }

/-- The call `glUniform1fARB(location, x)`. -/
def glUniform1fARB (location : Int) (x : ℚ) (s : State) : State :=
  writeUniform location (UniformValue.float1 x) (GLCall.uniform1f location x) s

/-- The call `glUniform2fARB(location, x, y)`. -/
def glUniform2fARB (location : Int) (x y : ℚ) (s : State) : State :=
  writeUniform location (UniformValue.float2 x y) (GLCall.uniform2f location x y) s

/-- The call `glUniform3fARB(location, x, y, z)`. -/
def glUniform3fARB (location : Int) (x y z : ℚ) (s : State) : State :=
  writeUniform location (UniformValue.float3 x y z) (GLCall.uniform3f location x y z) s

/-- The call `glUniform4fARB(location, x, y, z, w)`. -/
def glUniform4fARB (location : Int) (x y z w : ℚ) (s : State) : State :=
  writeUniform location (UniformValue.float4 x y z w) (GLCall.uniform4f location x y z w) s

/-- The call `glUniformMatrix4fvARB(location, 1, GL_FALSE, m)`. -/
def glUniformMatrix4fvARB (location : Int) (m : List ℚ) (s : State) : State :=
  writeUniform location (UniformValue.matrix4 m) (GLCall.uniformMatrix4fv location m) s

/-- The conversion `static_cast<std::size_t>(n)` of a `GLint`. -/
def toSizeT (n : Int) : Nat := (n % 2 ^ 64).toNat

/-- Arithmetic in `std::size_t`. -/
def wrapSizeT (n : Nat) : Nat := n % 2 ^ 64

/-- The message of every geometry-stage rejection in `Shader_2.cpp`. -/
def geometryMessage : String := "Cannot load geometry shaders in OpenGL 2.0"

/-- The message `"Parameter \"" << name << "\" not found in shader"`. -/
def parameterNotFound (name : String) : String :=
  "Parameter \"" ++ name ++ "\" not found in shader"

/-- The message `"Texture \"" << name << "\" not found in shader"`. -/
def textureNotFound (name : String) : String :=
  "Texture \"" ++ name ++ "\" not found in shader"

/-- The message written when no texture unit is left. -/
def unitsExhausted (name : String) : String :=
  "Impossible to use texture \"" ++ name ++
    "\" for shader: all available texture units are used"

/-! ## `Shader_2::setParameter` -/

namespace Shader_2

/-- The overload `Shader_2::setParameter(const std::string& name, float x)`. -/
def setParameter_float (locate : Nat → String → Int) (name : String) (x : ℚ)
    (s : State) : State :=
  if s.m_shaderProgram ≠ 0 then
    -- Enable program
    let (program, s1) := glGetHandleARB s
    let s2 := glUseProgramObjectARB s.m_shaderProgram s1
    -- Get parameter location and assign it new values
    let (location, s3) := glGetUniformLocationARB locate s.m_shaderProgram name s2
    let s4 := if location ≠ -1 then glUniform1fARB location x s3
              else err (parameterNotFound name) s3
    -- Disable program
    glUseProgramObjectARB program s4
  else s

/-- The overload `Shader_2::setParameter(const std::string& name, float x, float y)`. -/
def setParameter_float2 (locate : Nat → String → Int) (name : String) (x y : ℚ)
    (s : State) : State :=
  if s.m_shaderProgram ≠ 0 then
    -- Enable program
    let (program, s1) := glGetHandleARB s
    let s2 := glUseProgramObjectARB s.m_shaderProgram s1
    -- Get parameter location and assign it new values
    let (location, s3) := glGetUniformLocationARB locate s.m_shaderProgram name s2
    let s4 := if location ≠ -1 then glUniform2fARB location x y s3
              else err (parameterNotFound name) s3
    -- Disable program
    glUseProgramObjectARB program s4
  else s

/-- The overload `Shader_2::setParameter(const std::string& name, float x, float y, float z)`. -/
def setParameter_float3 (locate : Nat → String → Int) (name : String) (x y z : ℚ)
    (s : State) : State :=
  if s.m_shaderProgram ≠ 0 then
    -- Enable program
    let (program, s1) := glGetHandleARB s
    let s2 := glUseProgramObjectARB s.m_shaderProgram s1
    -- Get parameter location and assign it new values
    let (location, s3) := glGetUniformLocationARB locate s.m_shaderProgram name s2
    let s4 := if location ≠ -1 then glUniform3fARB location x y z s3
              else err (parameterNotFound name) s3
    -- Disable program
    glUseProgramObjectARB program s4
  else s

/-- The overload `Shader_2::setParameter(const std::string& name, float x, float y, float z, float w)`. -/
def setParameter_float4 (locate : Nat → String → Int) (name : String) (x y z w : ℚ)
    (s : State) : State :=
  if s.m_shaderProgram ≠ 0 then
    -- Enable program
    let (program, s1) := glGetHandleARB s
    let s2 := glUseProgramObjectARB s.m_shaderProgram s1
    -- Get parameter location and assign it new values
    let (location, s3) := glGetUniformLocationARB locate s.m_shaderProgram name s2
    let s4 := if location ≠ -1 then glUniform4fARB location x y z w s3
              else err (parameterNotFound name) s3
    -- Disable program
    glUseProgramObjectARB program s4
  else s

/-- The overload `Shader_2::setParameter(const std::string& name, const sf::Transform& transform)`. -/
def setParameter_Transform (locate : Nat → String → Int) (name : String) (transform : Transform)
    (s : State) : State :=
  if s.m_shaderProgram ≠ 0 then
    -- Enable program
    let (program, s1) := glGetHandleARB s
    let s2 := glUseProgramObjectARB s.m_shaderProgram s1
    -- Get parameter location and assign it new values
    let (location, s3) := glGetUniformLocationARB locate s.m_shaderProgram name s2
    let s4 := if location ≠ -1 then glUniformMatrix4fvARB location transform.getMatrix s3
              else err (parameterNotFound name) s3
    -- Disable program
    glUseProgramObjectARB program s4
  else s

/-- The overload `Shader_2::setParameter(const std::string& name, const Vector2f& v)`. -/
def setParameter_Vector2f (locate : Nat → String → Int) (name : String) (v : Vector2f)
    (s : State) : State :=
  setParameter_float2 locate name v.x v.y s

/-- The overload `Shader_2::setParameter(const std::string& name, const Vector3f& v)`. -/
def setParameter_Vector3f (locate : Nat → String → Int) (name : String) (v : Vector3f)
    (s : State) : State :=
  setParameter_float3 locate name v.x v.y v.z s

/-- The overload `Shader_2::setParameter(const std::string& name, const Color& color)`. -/
def setParameter_Color (locate : Nat → String → Int) (name : String) (color : Color)
    (s : State) : State :=
  setParameter_float4 locate name
    ((color.r.val : ℚ) / 255) ((color.g.val : ℚ) / 255)
    ((color.b.val : ℚ) / 255) ((color.a.val : ℚ) / 255) s

/-- The overload `Shader_2::setParameter(const std::string& name, const Texture& texture)`;
`maxUnits` is the value `getMaxTextureUnits()` gave to the function's
`static const GLint maxUnits`. -/
def setParameter_Texture (locate : Nat → String → Int) (maxUnits : Int) (name : String)
    (texture : Texture) (s : State) : State :=
  if s.m_shaderProgram ≠ 0 then
    -- Find the location of the variable in the shader
    let (location, s1) := glGetUniformLocationARB locate s.m_shaderProgram name s
    if location = -1 then
      err (textureNotFound name) s1
    else
      -- Store the location -> texture mapping
      match s1.m_textures.find location with
      | none =>
        -- New entry, make sure there are enough texture units
        if wrapSizeT (s1.m_textures.size + 1) ≥ toSizeT maxUnits then
          err (unitsExhausted name) s1
        else
          { s1 with m_textures := s1.m_textures.assign location texture }
      | some _ =>
        -- Location already used, just replace the texture
        { s1 with m_textures := s1.m_textures.setSecond location texture }
  else s

/-- The overload `Shader_2::setParameter(const std::string& name, CurrentTextureType)`. -/
def setParameter_CurrentTexture (locate : Nat → String → Int) (name : String)
    (s : State) : State :=
  if s.m_shaderProgram ≠ 0 then
    -- Find the location of the variable in the shader
    let (location, s1) := glGetUniformLocationARB locate s.m_shaderProgram name s
    let s2 := { s1 with m_currentTexture := location }
    if s2.m_currentTexture = -1 then
      err (textureNotFound name) s2
    else s2
  else s

end Shader_2

/-! ## `Shader_3_2::setParameter` -/

namespace Shader_3_2

/-- The overload `Shader_3_2::setParameter(const std::string& name, float x)`. -/
def setParameter_float (locate : Nat → String → Int) (name : String) (x : ℚ)
    (s : State) : State :=
  if s.m_shaderProgram ≠ 0 then
    -- Enable program
    let (program, s1) := glGetHandleARB s
    let s2 := glUseProgramObjectARB s.m_shaderProgram s1
    -- Get parameter location and assign it new values
    let (location, s3) := glGetUniformLocationARB locate s.m_shaderProgram name s2
    let s4 := if location ≠ -1 then glUniform1fARB location x s3
              else err (parameterNotFound name) s3
    -- Disable program
    glUseProgramObjectARB program s4
  else s

/-- The overload `Shader_3_2::setParameter(const std::string& name, float x, float y)`. -/
def setParameter_float2 (locate : Nat → String → Int) (name : String) (x y : ℚ)
    (s : State) : State :=
  if s.m_shaderProgram ≠ 0 then
    -- Enable program
    let (program, s1) := glGetHandleARB s
    let s2 := glUseProgramObjectARB s.m_shaderProgram s1
    -- Get parameter location and assign it new values
    let (location, s3) := glGetUniformLocationARB locate s.m_shaderProgram name s2
    let s4 := if location ≠ -1 then glUniform2fARB location x y s3
              else err (parameterNotFound name) s3
    -- Disable program
    glUseProgramObjectARB program s4
  else s

/-- The overload `Shader_3_2::setParameter(const std::string& name, float x, float y, float z)`. -/
def setParameter_float3 (locate : Nat → String → Int) (name : String) (x y z : ℚ)
    (s : State) : State :=
  if s.m_shaderProgram ≠ 0 then
    -- Enable program
    let (program, s1) := glGetHandleARB s
    let s2 := glUseProgramObjectARB s.m_shaderProgram s1
    -- Get parameter location and assign it new values
    let (location, s3) := glGetUniformLocationARB locate s.m_shaderProgram name s2
    let s4 := if location ≠ -1 then glUniform3fARB location x y z s3
              else err (parameterNotFound name) s3
    -- Disable program
    glUseProgramObjectARB program s4
  else s

/-- The overload `Shader_3_2::setParameter(const std::string& name, float x, float y, float z, float w)`. -/
def setParameter_float4 (locate : Nat → String → Int) (name : String) (x y z w : ℚ)
    (s : State) : State :=
  if s.m_shaderProgram ≠ 0 then
    -- Enable program
    let (program, s1) := glGetHandleARB s
    let s2 := glUseProgramObjectARB s.m_shaderProgram s1
    -- Get parameter location and assign it new values
    let (location, s3) := glGetUniformLocationARB locate s.m_shaderProgram name s2
    let s4 := if location ≠ -1 then glUniform4fARB location x y z w s3
              else err (parameterNotFound name) s3
    -- Disable program
    glUseProgramObjectARB program s4
  else s

/-- The overload `Shader_3_2::setParameter(const std::string& name, const sf::Transform& transform)`. -/
def setParameter_Transform (locate : Nat → String → Int) (name : String) (transform : Transform)
    (s : State) : State :=
  if s.m_shaderProgram ≠ 0 then
    -- Enable program
    let (program, s1) := glGetHandleARB s
    let s2 := glUseProgramObjectARB s.m_shaderProgram s1
    -- Get parameter location and assign it new values
    let (location, s3) := glGetUniformLocationARB locate s.m_shaderProgram name s2
    let s4 := if location ≠ -1 then glUniformMatrix4fvARB location transform.getMatrix s3
              else err (parameterNotFound name) s3
    -- Disable program
    glUseProgramObjectARB program s4
  else s

/-- The overload `Shader_3_2::setParameter(const std::string& name, const Vector2f& v)`. -/
def setParameter_Vector2f (locate : Nat → String → Int) (name : String) (v : Vector2f)
    (s : State) : State :=
  setParameter_float2 locate name v.x v.y s

/-- The overload `Shader_3_2::setParameter(const std::string& name, const Vector3f& v)`. -/
def setParameter_Vector3f (locate : Nat → String → Int) (name : String) (v : Vector3f)
    (s : State) : State :=
  setParameter_float3 locate name v.x v.y v.z s

/-- The overload `Shader_3_2::setParameter(const std::string& name, const Color& color)`. -/
def setParameter_Color (locate : Nat → String → Int) (name : String) (color : Color)
    (s : State) : State :=
  setParameter_float4 locate name
    ((color.r.val : ℚ) / 255) ((color.g.val : ℚ) / 255)
    ((color.b.val : ℚ) / 255) ((color.a.val : ℚ) / 255) s

/-- The overload `Shader_3_2::setParameter(const std::string& name, const Texture& texture)`;
`maxUnits` is the value `getMaxTextureUnits()` gave to the function's
`static const GLint maxUnits`. -/
def setParameter_Texture (locate : Nat → String → Int) (maxUnits : Int) (name : String)
    (texture : Texture) (s : State) : State :=
  if s.m_shaderProgram ≠ 0 then
    -- Find the location of the variable in the shader
    let (location, s1) := glGetUniformLocationARB locate s.m_shaderProgram name s
    if location = -1 then
      err (textureNotFound name) s1
    else
      -- Store the location -> texture mapping
      match s1.m_textures.find location with
      | none =>
        -- New entry, make sure there are enough texture units
        if wrapSizeT (s1.m_textures.size + 1) ≥ toSizeT maxUnits then
          err (unitsExhausted name) s1
        else
          { s1 with m_textures := s1.m_textures.assign location texture }
      | some _ =>
        -- Location already used, just replace the texture
        { s1 with m_textures := s1.m_textures.setSecond location texture }
  else s

/-- The overload `Shader_3_2::setParameter(const std::string& name, CurrentTextureType)`. -/
def setParameter_CurrentTexture (locate : Nat → String → Int) (name : String)
    (s : State) : State :=
  if s.m_shaderProgram ≠ 0 then
    -- Find the location of the variable in the shader
    let (location, s1) := glGetUniformLocationARB locate s.m_shaderProgram name s
    let s2 := { s1 with m_currentTexture := location }
    if s2.m_currentTexture = -1 then
      err (textureNotFound name) s2
    else s2
  else s

end Shader_3_2

/-! ## `Shader_2` loaders -/

namespace Shader_2

/-- The loader `Shader_2::loadFromFile(const std::string& filename, Type type)`;
`base` is `Shader::loadFromFile(filename, type)`. -/
def loadFromFile (base : String → ShaderType → State → Bool × State)
    (filename : String) (type : ShaderType) (s : State) : Bool × State :=
  if type ≠ ShaderType.Geometry then
    base filename type s
  else
    (false, err geometryMessage s)

/-- The loader `Shader_2::loadFromFile` with a vertex, a geometry and a
fragment file name; `base3` is the three-name `Shader::loadFromFile`. -/
def loadFromFile3 (base3 : String → String → String → State → Bool × State)
    (vertexShaderFilename geometryShaderFilename fragmentShaderFilename : String)
    (s : State) : Bool × State :=
  let s1 := if geometryShaderFilename.length > 0 then err geometryMessage s else s
  base3 vertexShaderFilename "" fragmentShaderFilename s1

/-- The loader `Shader_2::loadFromMemory(const std::string& shader, Type type)`;
`base` is `Shader::loadFromMemory(shader, type)`. -/
def loadFromMemory (base : String → ShaderType → State → Bool × State)
    (shader : String) (type : ShaderType) (s : State) : Bool × State :=
  if type ≠ ShaderType.Geometry then
    base shader type s
  else
    (false, err geometryMessage s)

/-- The loader `Shader_2::loadFromMemory` with three sources; `compile` is
`Shader::compile`, whose second argument is `none` for `NULL`. -/
def loadFromMemory3 (compile : String → Option String → String → State → Bool × State)
    (vertexShader geometryShader fragmentShader : String) (s : State) : Bool × State :=
  let s1 := if geometryShader.length > 0 then err geometryMessage s else s
  -- Compile the shader program
  compile vertexShader none fragmentShader s1

/-- The loader `Shader_2::loadFromStream(InputStream& stream, Type type)`;
`base` is `Shader::loadFromStream(stream, type)`. -/
def loadFromStream {Stream : Type} (base : Stream → ShaderType → State → Bool × State)
    (stream : Stream) (type : ShaderType) (s : State) : Bool × State :=
  if type ≠ ShaderType.Geometry then
    base stream type s
  else
    (false, err geometryMessage s)

/-- The loader `Shader_2::loadFromStream` with three streams; `getSize` is
`InputStream::getSize`, `getStreamContents` the helper that reads a whole
stream into a buffer (its flag is the `bool` it returns), `compile` is
`Shader::compile`. -/
def loadFromStream3 {Stream : Type} (getSize : Stream → Int)
    (getStreamContents : Stream → Bool × String)
    (compile : String → Option String → String → State → Bool × State)
    (vertexShaderStream geometryShaderStream fragmentShaderStream : Stream)
    (s : State) : Bool × State :=
  let s1 := if getSize geometryShaderStream > 0 then err geometryMessage s else s
  -- Read the vertex shader code from the stream
  let (okVertex, vertexShader) := getStreamContents vertexShaderStream
  if !okVertex then
    (false, err "Failed to read vertex shader from stream" s1)
  else
    -- Read the fragment shader code from the stream
    let (okFragment, fragmentShader) := getStreamContents fragmentShaderStream
    if !okFragment then
      (false, err "Failed to read fragment shader from stream" s1)
    else
      -- Compile the shader program
      compile vertexShader none fragmentShader s1

end Shader_2

/-! ## Sequences of texture bindings -/

/-- One call `setParameter(name, texture)` together with the answers the
graphics card gives to uniform-location queries at the time of the call. -/
structure TextureCall where
  locate : Nat → String → Int
  name : String
  texture : Texture

/-- A finite sequence of `Shader_2::setParameter(name, texture)` calls. -/
def Shader_2.runTextureCalls (maxUnits : Int) : List TextureCall → State → State
  | [], s => s
  | c :: cs, s =>
    Shader_2.runTextureCalls maxUnits cs
      (Shader_2.setParameter_Texture c.locate maxUnits c.name c.texture s)

/-- A finite sequence of `Shader_3_2::setParameter(name, texture)` calls. -/
def Shader_3_2.runTextureCalls (maxUnits : Int) : List TextureCall → State → State
  | [], s => s
  | c :: cs, s =>
    Shader_3_2.runTextureCalls maxUnits cs
      (Shader_3_2.setParameter_Texture c.locate maxUnits c.name c.texture s)

/-- A state with no program, an empty table and an untouched OpenGL state. -/
def State.initial : State :=
  { m_shaderProgram := 0, m_textures := [], m_currentTexture := -1,
    boundProgram := 0, uniforms := fun _ _ => none, glCalls := [], errLog := [] }

/-- A shader whose program `7` is compiled, with nothing bound yet. -/
def State.compiled : State :=
  { State.initial with m_shaderProgram := 7 }

/-- A program in which the uniform called `name` sits at location `name.length`,
except that names starting with `?` are not found. -/
def sampleLocate : Nat → String → Int :=
  fun _ name => if name.front = '?' then -1 else (name.length : Int)

/-- Six bindings: three new locations, a name that is not found, a second
binding of the first location and a fourth new location. -/
def sampleCalls : List TextureCall :=
  [⟨sampleLocate, "a", 1⟩, ⟨sampleLocate, "bbb", 2⟩, ⟨sampleLocate, "cc", 3⟩,
   ⟨sampleLocate, "?x", 4⟩, ⟨sampleLocate, "a", 9⟩, ⟨sampleLocate, "dddd", 5⟩]

/-- The table is empty or strictly below the converted unit count. -/
def belowUnits (maxUnits : Int) (s : State) : Prop :=
  s.m_textures.size = 0 ∨ s.m_textures.size < toSizeT maxUnits

/-- A base loader that installs program `3` for a fragment shader and fails,
with a message, for anything else. -/
def sampleBase {α : Type} : α → ShaderType → State → Bool × State :=
  fun _ type s =>
    if type = ShaderType.Fragment then (true, { s with m_shaderProgram := 3 })
    else (false, err "Failed to compile" s)

/-- The compiled shader with one texture, at `9`, bound to location `1`. -/
def State.oneTexture : State :=
  { State.compiled with m_textures := [(1, 9)] }

/-- The compiled shader with seven textures bound, at locations `1` to `7`. -/
def State.sevenTextures : State :=
  { State.compiled with
    m_textures := [(1, 11), (2, 12), (3, 13), (4, 14), (5, 15), (6, 16), (7, 17)] }

/-- The frame of a value setter called with `name` on state `s` and ending in
`s1`: the program in use is the one in use before, only the uniform of
`m_shaderProgram` at the location of `name` may differ, and the OpenGL calls
added hold at most one uniform write. -/
def ValueSetterFrame (locate : Nat → String → Int) (name : String) (s s1 : State) : Prop :=
  s1.boundProgram = s.boundProgram ∧
  (∀ p l, ¬ (p = s.m_shaderProgram ∧ l = locate s.m_shaderProgram name) →
    s1.uniforms p l = s.uniforms p l) ∧
  ∃ added, s1.glCalls = s.glCalls ++ added ∧
    (added.filter GLCall.isUniformWrite).length ≤ 1

/-- The frame of a texture setter called on state `s` and ending in `s1`: the
program in use and every uniform are as before, and the OpenGL calls added
hold no uniform write. -/
def TextureSetterFrame (s s1 : State) : Prop :=
  s1.boundProgram = s.boundProgram ∧ s1.uniforms = s.uniforms ∧
  ∃ added, s1.glCalls = s.glCalls ++ added ∧ added.filter GLCall.isUniformWrite = []

/-! ## Lemmas on the texture table -/

namespace TextureTable

theorem size_setSecond (t : TextureTable) (location : Int) (texture : Texture) :
    (setSecond t location texture).size = t.size := by
  induction t with
  | nil => rfl
  | cons e rest ih =>
    obtain ⟨k, v⟩ := e
    by_cases h : k = location
    · simp [setSecond, size, h]
    · simp only [size] at ih
      simp [setSecond, size, h, ih]

theorem find_setSecond_self (t : TextureTable) (location : Int) (texture : Texture)
    (h : (find t location).isSome) :
    find (setSecond t location texture) location = some texture := by
  induction t with
  | nil => simp [find] at h
  | cons e rest ih =>
    obtain ⟨k, v⟩ := e
    by_cases hk : k = location
    · simp [setSecond, find, hk]
    · simp only [find, hk, if_false] at h
      simp [setSecond, find, hk, ih h]

theorem find_setSecond_other (t : TextureTable) (location other : Int) (texture : Texture)
    (h : other ≠ location) :
    find (setSecond t location texture) other = find t other := by
  induction t with
  | nil => rfl
  | cons e rest ih =>
    obtain ⟨k, v⟩ := e
    by_cases hk : k = location
    · have hko : k ≠ other := fun e => h (e ▸ hk)
      simp [setSecond, find, hk, hko, h.symm]
    · by_cases hko : k = other
      · subst hko
        simp [setSecond, find, hk]
      · simp [setSecond, find, hk, hko, ih]

theorem size_assign_le (t : TextureTable) (location : Int) (texture : Texture) :
    (assign t location texture).size ≤ t.size + 1 := by
  induction t with
  | nil => simp [assign, size]
  | cons e rest ih =>
    obtain ⟨k, v⟩ := e
    simp only [size] at ih
    simp only [assign, size]
    split_ifs
    · simp
    · simp
    · simp only [List.length_cons]
      omega

theorem find_assign_self (t : TextureTable) (location : Int) (texture : Texture) :
    find (assign t location texture) location = some texture := by
  induction t with
  | nil => simp [assign, find]
  | cons e rest ih =>
    obtain ⟨k, v⟩ := e
    simp only [assign]
    split_ifs with h1 h2
    · simp [find]
    · simp [find, h2]
    · simp [find, h2, ih]

theorem find_assign_other (t : TextureTable) (location other : Int) (texture : Texture)
    (h : other ≠ location) :
    find (assign t location texture) other = find t other := by
  induction t with
  | nil => simp [assign, find, h.symm]
  | cons e rest ih =>
    obtain ⟨k, v⟩ := e
    simp only [assign]
    split_ifs with h1 h2
    · simp [find, h.symm]
    · have hko : k ≠ other := fun e => h (e ▸ h2)
      simp [find, hko]
    · by_cases hko : k = other
      · subst hko
        simp [find]
      · simp [find, hko, ih]

theorem assign_perm_of_find_none (t : TextureTable) (location : Int) (texture : Texture)
    (h : find t location = none) :
    List.Perm (assign t location texture) ((location, texture) :: t) := by
  induction t with
  | nil => simp [assign]
  | cons e rest ih =>
    obtain ⟨k, v⟩ := e
    by_cases hk : k = location
    · simp [find, hk] at h
    · simp only [find, hk, if_false] at h
      simp only [assign]
      split_ifs with h1
      · exact List.Perm.refl _
      · exact ((ih h).cons (k, v)).trans (List.Perm.swap _ _ _)

theorem size_assign_of_find_none (t : TextureTable) (location : Int) (texture : Texture)
    (h : find t location = none) :
    (assign t location texture).size = t.size + 1 := by
  have := (assign_perm_of_find_none t location texture h).length_eq
  simpa [size] using this

theorem keys_setSecond (t : TextureTable) (location : Int) (texture : Texture) :
    (setSecond t location texture).map Prod.fst = t.map Prod.fst := by
  induction t with
  | nil => rfl
  | cons e rest ih =>
    obtain ⟨k, v⟩ := e
    by_cases hk : k = location
    · simp [setSecond, hk]
    · simp [setSecond, hk, ih]

theorem find_eq_none_iff (t : TextureTable) (location : Int) :
    find t location = none ↔ location ∉ t.map Prod.fst := by
  induction t with
  | nil => simp [find]
  | cons e rest ih =>
    obtain ⟨k, v⟩ := e
    by_cases hk : k = location
    · simp [find, hk]
    · have hk2 : ¬ location = k := fun e => hk e.symm
      simp [find, hk, hk2, ih]

end TextureTable

theorem toSizeT_lt (n : Int) : toSizeT n < 2 ^ 64 := by
  unfold toSizeT
  omega

theorem toSizeT_of_nonneg (n : Int) (h : 0 ≤ n) : (toSizeT n : Int) ≤ n := by
  unfold toSizeT
  omega


/-! ## The two classes have the same setters -/

theorem Shader_3_2.setParameter_Texture_eq :
    Shader_3_2.setParameter_Texture = Shader_2.setParameter_Texture := rfl

theorem Shader_3_2.runTextureCalls_eq (maxUnits : Int) (calls : List TextureCall) (s : State) :
    Shader_3_2.runTextureCalls maxUnits calls s = Shader_2.runTextureCalls maxUnits calls s := by
  induction calls generalizing s with
  | nil => rfl
  | cons c cs ih =>
    simp only [Shader_3_2.runTextureCalls, Shader_2.runTextureCalls,
      Shader_3_2.setParameter_Texture_eq, ih]

theorem Shader_3_2.setParameter_float_eq :
    Shader_3_2.setParameter_float = Shader_2.setParameter_float := rfl
theorem Shader_3_2.setParameter_float2_eq :
    Shader_3_2.setParameter_float2 = Shader_2.setParameter_float2 := rfl
theorem Shader_3_2.setParameter_float3_eq :
    Shader_3_2.setParameter_float3 = Shader_2.setParameter_float3 := rfl
theorem Shader_3_2.setParameter_float4_eq :
    Shader_3_2.setParameter_float4 = Shader_2.setParameter_float4 := rfl
theorem Shader_3_2.setParameter_Transform_eq :
    Shader_3_2.setParameter_Transform = Shader_2.setParameter_Transform := rfl
theorem Shader_3_2.setParameter_CurrentTexture_eq :
    Shader_3_2.setParameter_CurrentTexture = Shader_2.setParameter_CurrentTexture := rfl
theorem Shader_3_2.setParameter_Color_eq :
    Shader_3_2.setParameter_Color = Shader_2.setParameter_Color := rfl

/-! ## Capacity of the texture table -/

theorem Shader_2.setParameter_Texture_noProgram (locate : Nat → String → Int)
    (maxUnits : Int) (name : String) (texture : Texture) (s : State)
    (h : s.m_shaderProgram = 0) :
    Shader_2.setParameter_Texture locate maxUnits name texture s = s := by
  simp [Shader_2.setParameter_Texture, h]

theorem Shader_2.setParameter_Texture_notFound (locate : Nat → String → Int)
    (maxUnits : Int) (name : String) (texture : Texture) (s : State)
    (h1 : s.m_shaderProgram ≠ 0) (h2 : locate s.m_shaderProgram name = -1) :
    Shader_2.setParameter_Texture locate maxUnits name texture s =
      err (textureNotFound name)
        (glGetUniformLocationARB locate s.m_shaderProgram name s).2 := by
  simp [Shader_2.setParameter_Texture, glGetUniformLocationARB, h1, h2]

theorem Shader_2.setParameter_Texture_exhausted (locate : Nat → String → Int)
    (maxUnits : Int) (name : String) (texture : Texture) (s : State)
    (h1 : s.m_shaderProgram ≠ 0) (h2 : locate s.m_shaderProgram name ≠ -1)
    (h3 : s.m_textures.find (locate s.m_shaderProgram name) = none)
    (h4 : wrapSizeT (s.m_textures.size + 1) ≥ toSizeT maxUnits) :
    Shader_2.setParameter_Texture locate maxUnits name texture s =
      err (unitsExhausted name)
        (glGetUniformLocationARB locate s.m_shaderProgram name s).2 := by
  simp only [Shader_2.setParameter_Texture, glGetUniformLocationARB, h1, h2, h3, h4,
    ne_eq, not_false_eq_true, if_true, if_false]

theorem Shader_2.setParameter_Texture_inserted (locate : Nat → String → Int)
    (maxUnits : Int) (name : String) (texture : Texture) (s : State)
    (h1 : s.m_shaderProgram ≠ 0) (h2 : locate s.m_shaderProgram name ≠ -1)
    (h3 : s.m_textures.find (locate s.m_shaderProgram name) = none)
    (h4 : ¬ wrapSizeT (s.m_textures.size + 1) ≥ toSizeT maxUnits) :
    Shader_2.setParameter_Texture locate maxUnits name texture s =
      { (glGetUniformLocationARB locate s.m_shaderProgram name s).2 with
        m_textures := s.m_textures.assign (locate s.m_shaderProgram name) texture } := by
  simp only [Shader_2.setParameter_Texture, glGetUniformLocationARB, h1, h2, h3, h4,
    ne_eq, not_false_eq_true, if_true, if_false]

theorem Shader_2.setParameter_Texture_replaced (locate : Nat → String → Int)
    (maxUnits : Int) (name : String) (texture : Texture) (s : State)
    (h1 : s.m_shaderProgram ≠ 0) (h2 : locate s.m_shaderProgram name ≠ -1)
    (old : Texture) (h3 : s.m_textures.find (locate s.m_shaderProgram name) = some old) :
    Shader_2.setParameter_Texture locate maxUnits name texture s =
      { (glGetUniformLocationARB locate s.m_shaderProgram name s).2 with
        m_textures := s.m_textures.setSecond (locate s.m_shaderProgram name) texture } := by
  simp only [Shader_2.setParameter_Texture, glGetUniformLocationARB, h1, h2, h3,
    ne_eq, not_false_eq_true, if_true, if_false]

theorem Shader_2.setParameter_Texture_belowUnits (locate : Nat → String → Int)
    (maxUnits : Int) (name : String) (texture : Texture) (s : State)
    (h : belowUnits maxUnits s) :
    belowUnits maxUnits (Shader_2.setParameter_Texture locate maxUnits name texture s) := by
  have hlt := toSizeT_lt maxUnits
  by_cases h1 : s.m_shaderProgram = 0
  · rw [Shader_2.setParameter_Texture_noProgram locate maxUnits name texture s h1]
    exact h
  by_cases h2 : locate s.m_shaderProgram name = -1
  · rw [Shader_2.setParameter_Texture_notFound locate maxUnits name texture s h1 h2]
    exact h
  cases h3 : s.m_textures.find (locate s.m_shaderProgram name) with
  | some old =>
    rw [Shader_2.setParameter_Texture_replaced locate maxUnits name texture s h1 h2 old h3]
    unfold belowUnits at *
    simp only [TextureTable.size_setSecond]
    exact h
  | none =>
    by_cases h4 : wrapSizeT (s.m_textures.size + 1) ≥ toSizeT maxUnits
    · rw [Shader_2.setParameter_Texture_exhausted locate maxUnits name texture s h1 h2 h3 h4]
      exact h
    · rw [Shader_2.setParameter_Texture_inserted locate maxUnits name texture s h1 h2 h3 h4]
      unfold belowUnits at *
      right
      have hle := TextureTable.size_assign_le s.m_textures (locate s.m_shaderProgram name) texture
      simp only [wrapSizeT, ge_iff_le, not_le] at h4
      simp only
      rcases h with h | h
      · rw [h] at h4 hle
        norm_num at h4
        omega
      · have : (s.m_textures.size + 1) % 2 ^ 64 = s.m_textures.size + 1 :=
          Nat.mod_eq_of_lt (by omega)
        rw [this] at h4
        omega

/-- The keys of the table stay pairwise distinct under a texture binding, so
the length of the list is the number of locations bound. -/
theorem Shader_2.setParameter_Texture_nodup (locate : Nat → String → Int)
    (maxUnits : Int) (name : String) (texture : Texture) (s : State)
    (h : (s.m_textures.map Prod.fst).Nodup) :
    ((Shader_2.setParameter_Texture locate maxUnits name texture s).m_textures.map
      Prod.fst).Nodup := by
  by_cases h1 : s.m_shaderProgram = 0
  · rw [Shader_2.setParameter_Texture_noProgram locate maxUnits name texture s h1]
    exact h
  by_cases h2 : locate s.m_shaderProgram name = -1
  · rw [Shader_2.setParameter_Texture_notFound locate maxUnits name texture s h1 h2]
    exact h
  cases h3 : s.m_textures.find (locate s.m_shaderProgram name) with
  | some old =>
    rw [Shader_2.setParameter_Texture_replaced locate maxUnits name texture s h1 h2 old h3]
    simp only [TextureTable.keys_setSecond]
    exact h
  | none =>
    by_cases h4 : wrapSizeT (s.m_textures.size + 1) ≥ toSizeT maxUnits
    · rw [Shader_2.setParameter_Texture_exhausted locate maxUnits name texture s h1 h2 h3 h4]
      exact h
    · rw [Shader_2.setParameter_Texture_inserted locate maxUnits name texture s h1 h2 h3 h4]
      have hp := (TextureTable.assign_perm_of_find_none s.m_textures
        (locate s.m_shaderProgram name) texture h3).map Prod.fst
      refine (List.Perm.nodup_iff hp).mpr ?_
      simp only [List.map_cons, List.nodup_cons]
      exact ⟨(TextureTable.find_eq_none_iff _ _).mp h3, h⟩

theorem Shader_2.runTextureCalls_belowUnits (maxUnits : Int) (calls : List TextureCall)
    (s : State) (h : belowUnits maxUnits s) :
    belowUnits maxUnits (Shader_2.runTextureCalls maxUnits calls s) := by
  induction calls generalizing s with
  | nil => exact h
  | cons c cs ih =>
    exact ih _ (Shader_2.setParameter_Texture_belowUnits c.locate maxUnits c.name c.texture s h)

theorem belowUnits_le (maxUnits : Int) (s : State) (h0 : 0 ≤ maxUnits)
    (h : belowUnits maxUnits s) : (s.m_textures.size : Int) ≤ maxUnits := by
  have := toSizeT_of_nonneg maxUnits h0
  rcases h with h | h
  · rw [h]; exact_mod_cast h0
  · omega

/-! ## Frame of the setters -/

/-- The shape shared by the five value setters: `v` is the value stored and
`call` the uniform call made when the name is found. -/
theorem valueSetterFrame_of_shape (locate : Nat → String → Int) (name : String) (s : State)
    (v : UniformValue) (call : Int → GLCall) :
    ValueSetterFrame locate name s
      (if s.m_shaderProgram ≠ 0 then
        glUseProgramObjectARB (glGetHandleARB s).1
          (if (glGetUniformLocationARB locate s.m_shaderProgram name
                (glUseProgramObjectARB s.m_shaderProgram (glGetHandleARB s).2)).1 ≠ -1 then
            writeUniform
              (glGetUniformLocationARB locate s.m_shaderProgram name
                (glUseProgramObjectARB s.m_shaderProgram (glGetHandleARB s).2)).1
              v
              (call (glGetUniformLocationARB locate s.m_shaderProgram name
                (glUseProgramObjectARB s.m_shaderProgram (glGetHandleARB s).2)).1)
              (glGetUniformLocationARB locate s.m_shaderProgram name
                (glUseProgramObjectARB s.m_shaderProgram (glGetHandleARB s).2)).2
          else
            err (parameterNotFound name)
              (glGetUniformLocationARB locate s.m_shaderProgram name
                (glUseProgramObjectARB s.m_shaderProgram (glGetHandleARB s).2)).2)
      else s) := by
  by_cases h1 : s.m_shaderProgram = 0
  · simp only [h1, ne_eq, not_true_eq_false, if_false]
    exact ⟨rfl, fun _ _ _ => rfl, [], by simp, by simp⟩
  · by_cases h2 : locate s.m_shaderProgram name = -1
    · simp only [h1, h2, ne_eq, not_false_eq_true, not_true_eq_false, if_true, if_false,
        glGetUniformLocationARB, glUseProgramObjectARB, glGetHandleARB, err]
      refine ⟨rfl, fun _ _ _ => rfl,
        [GLCall.getHandle, GLCall.useProgramObject s.m_shaderProgram,
         GLCall.getUniformLocation s.m_shaderProgram name,
         GLCall.useProgramObject s.boundProgram], ?_, ?_⟩
      · simp only [List.append_assoc]
        rfl
      · simp [GLCall.isUniformWrite]
    · simp only [h1, h2, ne_eq, not_false_eq_true, if_true,
        glGetUniformLocationARB, glUseProgramObjectARB, glGetHandleARB, writeUniform]
      refine ⟨rfl, ?_,
        [GLCall.getHandle, GLCall.useProgramObject s.m_shaderProgram,
         GLCall.getUniformLocation s.m_shaderProgram name,
         call (locate s.m_shaderProgram name),
         GLCall.useProgramObject s.boundProgram], ?_, ?_⟩
      · intro p l hpl
        simp only [hpl, if_false]
      · simp only [List.append_assoc]
        rfl
      · have hf : List.filter GLCall.isUniformWrite
            [GLCall.getHandle, GLCall.useProgramObject s.m_shaderProgram,
             GLCall.getUniformLocation s.m_shaderProgram name,
             call (locate s.m_shaderProgram name),
             GLCall.useProgramObject s.boundProgram]
            = List.filter GLCall.isUniformWrite [call (locate s.m_shaderProgram name)] := by
          simp [List.filter_cons, GLCall.isUniformWrite]
        rw [hf]
        exact List.length_filter_le _ _

theorem Shader_2.setParameter_Texture_frame (locate : Nat → String → Int)
    (maxUnits : Int) (name : String) (texture : Texture) (s : State) :
    TextureSetterFrame s (Shader_2.setParameter_Texture locate maxUnits name texture s) := by
  by_cases h1 : s.m_shaderProgram = 0
  · rw [Shader_2.setParameter_Texture_noProgram locate maxUnits name texture s h1]
    exact ⟨rfl, rfl, [], by simp, rfl⟩
  have hq : ∀ s1 : State, s1.boundProgram = s.boundProgram → s1.uniforms = s.uniforms →
      s1.glCalls = s.glCalls ++ [GLCall.getUniformLocation s.m_shaderProgram name] →
      TextureSetterFrame s s1 :=
    fun s1 hb hu hc => ⟨hb, hu, [GLCall.getUniformLocation s.m_shaderProgram name], hc, rfl⟩
  by_cases h2 : locate s.m_shaderProgram name = -1
  · rw [Shader_2.setParameter_Texture_notFound locate maxUnits name texture s h1 h2]
    exact hq _ rfl rfl rfl
  cases h3 : s.m_textures.find (locate s.m_shaderProgram name) with
  | some old =>
    rw [Shader_2.setParameter_Texture_replaced locate maxUnits name texture s h1 h2 old h3]
    exact hq _ rfl rfl rfl
  | none =>
    by_cases h4 : wrapSizeT (s.m_textures.size + 1) ≥ toSizeT maxUnits
    · rw [Shader_2.setParameter_Texture_exhausted locate maxUnits name texture s h1 h2 h3 h4]
      exact hq _ rfl rfl rfl
    · rw [Shader_2.setParameter_Texture_inserted locate maxUnits name texture s h1 h2 h3 h4]
      exact hq _ rfl rfl rfl

theorem Shader_2.setParameter_CurrentTexture_frame (locate : Nat → String → Int)
    (name : String) (s : State) :
    TextureSetterFrame s (Shader_2.setParameter_CurrentTexture locate name s) := by
  by_cases h1 : s.m_shaderProgram = 0
  · simp only [Shader_2.setParameter_CurrentTexture, h1, ne_eq, not_true_eq_false, if_false]
    exact ⟨rfl, rfl, [], by simp, rfl⟩
  · by_cases h2 : locate s.m_shaderProgram name = -1
    · simp only [Shader_2.setParameter_CurrentTexture, glGetUniformLocationARB, err, h1, h2,
        ne_eq, not_false_eq_true, if_true]
      exact ⟨rfl, rfl, [GLCall.getUniformLocation s.m_shaderProgram name], rfl, rfl⟩
    · simp only [Shader_2.setParameter_CurrentTexture, glGetUniformLocationARB, err, h1, h2,
        ne_eq, not_false_eq_true, if_true, if_false]
      exact ⟨rfl, rfl, [GLCall.getUniformLocation s.m_shaderProgram name], rfl, rfl⟩

/-! ## Claims -/

/-- C1: with `maxUnits ≥ 0` and a table that starts empty, after any finite
sequence of `setParameter(name, texture)` calls (any names, textures and
location answers) the table holds at most `maxUnits` entries, for `Shader_2`
and for `Shader_3_2`; this holds whether or not the program is valid. -/
theorem texture_table_capacity (maxUnits : Int) (hmax : 0 ≤ maxUnits) (s : State)
    (hempty : s.m_textures = []) (calls : List TextureCall) :
    ((Shader_2.runTextureCalls maxUnits calls s).m_textures.size : Int) ≤ maxUnits ∧
    ((Shader_3_2.runTextureCalls maxUnits calls s).m_textures.size : Int) ≤ maxUnits := by
  have h : belowUnits maxUnits s := Or.inl (by rw [hempty]; rfl)
  have h2 := belowUnits_le maxUnits _ hmax (Shader_2.runTextureCalls_belowUnits maxUnits calls s h)
  exact ⟨h2, by rw [Shader_3_2.runTextureCalls_eq]; exact h2⟩

/-- Witness for C1: three units, a compiled shader and six bindings. -/
theorem texture_table_capacity_witness :
    (0 : Int) ≤ 3 ∧ State.compiled.m_textures = [] ∧
    ((Shader_2.runTextureCalls 3 sampleCalls State.compiled).m_textures.size : Int) ≤ 3 ∧
    ((Shader_3_2.runTextureCalls 3 sampleCalls State.compiled).m_textures.size : Int) ≤ 3 :=
  ⟨by decide, rfl, texture_table_capacity 3 (by decide) State.compiled rfl sampleCalls⟩

/-- C2: for the geometry stage the single-source loaders `loadFromFile`,
`loadFromMemory` and `loadFromStream` of `Shader_2` return `false` and write
the message "Cannot load geometry shaders in OpenGL 2.0" once; the outcome is
the same whatever the base loader is, so the base loader is not called, and
the program handle, the texture table, the current-texture location and the
OpenGL state are unchanged. -/
theorem geometry_rejected_single_source {Stream : Type}
    (baseFile baseMemory : String → ShaderType → State → Bool × State)
    (baseStream : Stream → ShaderType → State → Bool × State)
    (x : String) (stream : Stream) (s : State) :
    Shader_2.loadFromFile baseFile x ShaderType.Geometry s
        = (false, { s with errLog := s.errLog ++ ["Cannot load geometry shaders in OpenGL 2.0"] }) ∧
    Shader_2.loadFromMemory baseMemory x ShaderType.Geometry s
        = (false, { s with errLog := s.errLog ++ ["Cannot load geometry shaders in OpenGL 2.0"] }) ∧
    Shader_2.loadFromStream baseStream stream ShaderType.Geometry s
        = (false, { s with errLog := s.errLog ++ ["Cannot load geometry shaders in OpenGL 2.0"] }) :=
  ⟨rfl, rfl, rfl⟩

/-- Counterexample for C3: with a non-empty geometry file name, source or
stream, the three-source loaders return `true` as soon as loading the vertex
and fragment stages succeeds. -/
theorem geometry_three_source_not_false :
    0 < "g.geom".length ∧
    (Shader_2.loadFromFile3 (fun _ _ _ s => (true, s))
        "v.vert" "g.geom" "f.frag" State.initial).1 ≠ false ∧
    (Shader_2.loadFromMemory3 (fun _ _ _ s => (true, s))
        "void main();" "g.geom" "void main();" State.initial).1 ≠ false ∧
    (Shader_2.loadFromStream3 (fun (n : Nat) => (n : Int)) (fun _ => (true, "void main();"))
        (fun _ _ _ s => (true, s)) 10 20 30 State.initial).1 ≠ false := by
  refine ⟨by decide, ?_, ?_, ?_⟩ <;> simp [Shader_2.loadFromFile3, Shader_2.loadFromMemory3,
    Shader_2.loadFromStream3]

/-- C3 (amended): with a non-empty geometry argument the three-source loaders
write the geometry-stage message and then load the vertex and fragment stages
alone: `loadFromFile` returns what the base loader returns for an empty
geometry file name, `loadFromMemory` what `compile` returns without a
geometry source, and `loadFromStream` returns `false` with a read-failure
message when a stream cannot be read and what `compile` returns otherwise. -/
theorem geometry_three_source_logged {Stream : Type}
    (base3 : String → String → String → State → Bool × State)
    (compile : String → Option String → String → State → Bool × State)
    (getSize : Stream → Int) (getStreamContents : Stream → Bool × String)
    (v g f : String) (vs gs fs : Stream) (s : State)
    (hg : 0 < g.length) (hgs : 0 < getSize gs) :
    Shader_2.loadFromFile3 base3 v g f s = base3 v "" f (err geometryMessage s) ∧
    Shader_2.loadFromMemory3 compile v g f s = compile v none f (err geometryMessage s) ∧
    Shader_2.loadFromStream3 getSize getStreamContents compile vs gs fs s =
      (if (getStreamContents vs).1 = false then
        (false, err "Failed to read vertex shader from stream" (err geometryMessage s))
      else if (getStreamContents fs).1 = false then
        (false, err "Failed to read fragment shader from stream" (err geometryMessage s))
      else
        compile (getStreamContents vs).2 none (getStreamContents fs).2
          (err geometryMessage s)) := by
  refine ⟨?_, ?_, ?_⟩
  · simp [Shader_2.loadFromFile3, hg]
  · simp [Shader_2.loadFromMemory3, hg]
  · simp only [Shader_2.loadFromStream3, hgs, gt_iff_lt, if_true]
    cases h1 : (getStreamContents vs).1 <;> cases h2 : (getStreamContents fs).1 <;> simp [h1, h2]

/-- Witness for C3 (amended): file names, sources and streams with a
geometry part. -/
theorem geometry_three_source_logged_witness :
    0 < "g.geom".length ∧ 0 < (fun (n : Nat) => (n : Int)) 20 ∧
    Shader_2.loadFromFile3 (fun _ _ _ s => (true, s)) "v.vert" "g.geom" "f.frag" State.initial
      = (fun _ _ _ s => (true, s)) "v.vert" "" "f.frag" (err geometryMessage State.initial) :=
  ⟨by decide, by decide,
   (geometry_three_source_logged (fun _ _ _ s => (true, s)) (fun _ _ _ s => (true, s))
      (fun (n : Nat) => (n : Int)) (fun _ => (true, "void main();"))
      "v.vert" "g.geom" "f.frag" 10 20 30 State.initial (by decide) (by decide)).1⟩

/-- C4: for a type other than `Geometry` the single-source loaders
`loadFromFile`, `loadFromMemory` and `loadFromStream` of `Shader_2` are the
base loader called with the same arguments: same result, same resulting
state, and no message of their own. -/
theorem supported_stage_delegates {Stream : Type}
    (baseFile baseMemory : String → ShaderType → State → Bool × State)
    (baseStream : Stream → ShaderType → State → Bool × State)
    (type : ShaderType) (htype : type ≠ ShaderType.Geometry)
    (x : String) (stream : Stream) (s : State) :
    Shader_2.loadFromFile baseFile x type s = baseFile x type s ∧
    Shader_2.loadFromMemory baseMemory x type s = baseMemory x type s ∧
    Shader_2.loadFromStream baseStream stream type s = baseStream stream type s := by
  simp [Shader_2.loadFromFile, Shader_2.loadFromMemory, Shader_2.loadFromStream, htype]

/-- Witness for C4: a fragment shader given as a file, a source and a stream. -/
theorem supported_stage_delegates_witness :
    ShaderType.Fragment ≠ ShaderType.Geometry ∧
    Shader_2.loadFromFile sampleBase "blur.frag" ShaderType.Fragment State.initial
      = sampleBase "blur.frag" ShaderType.Fragment State.initial ∧
    Shader_2.loadFromMemory sampleBase "blur.frag" ShaderType.Fragment State.initial
      = sampleBase "blur.frag" ShaderType.Fragment State.initial ∧
    Shader_2.loadFromStream sampleBase (5 : Nat) ShaderType.Fragment State.initial
      = sampleBase (5 : Nat) ShaderType.Fragment State.initial :=
  ⟨by decide, supported_stage_delegates sampleBase sampleBase sampleBase
    ShaderType.Fragment (by decide) "blur.frag" (5 : Nat) State.initial⟩

/-- C5: for a shader with a valid program and a name found at location `loc`
(not `-1`), in `Shader_2` and in `Shader_3_2`: if `loc` is already a key of
`m_textures`, `setParameter(name, texture)` logs nothing whatever `maxUnits`
is, keeps the number of entries and makes the entry at `loc` refer to
`texture`; if `loc` is new and the capacity test lets it in, the table becomes
the old entries plus `loc -> texture`. In both cases the entry at every other
location is unchanged. -/
theorem texture_binding_postcondition
    (setTexture : (Nat → String → Int) → Int → String → Texture → State → State)
    (hset : setTexture = Shader_2.setParameter_Texture ∨
            setTexture = Shader_3_2.setParameter_Texture)
    (locate : Nat → String → Int) (maxUnits : Int) (name : String) (texture : Texture)
    (s : State) (loc : Int)
    (hprog : s.m_shaderProgram ≠ 0) (hloc : locate s.m_shaderProgram name = loc)
    (hfound : loc ≠ -1) :
    ((∃ old, s.m_textures.find loc = some old) →
      (setTexture locate maxUnits name texture s).errLog = s.errLog ∧
      (setTexture locate maxUnits name texture s).m_textures.size = s.m_textures.size ∧
      (setTexture locate maxUnits name texture s).m_textures.find loc = some texture ∧
      ∀ other, other ≠ loc →
        (setTexture locate maxUnits name texture s).m_textures.find other
          = s.m_textures.find other) ∧
    (s.m_textures.find loc = none →
      wrapSizeT (s.m_textures.size + 1) < toSizeT maxUnits →
      (setTexture locate maxUnits name texture s).errLog = s.errLog ∧
      List.Perm (setTexture locate maxUnits name texture s).m_textures
        ((loc, texture) :: s.m_textures) ∧
      (setTexture locate maxUnits name texture s).m_textures.size = s.m_textures.size + 1 ∧
      (setTexture locate maxUnits name texture s).m_textures.find loc = some texture ∧
      ∀ other, other ≠ loc →
        (setTexture locate maxUnits name texture s).m_textures.find other
          = s.m_textures.find other) := by
  have h2 : setTexture = Shader_2.setParameter_Texture := by
    rcases hset with h | h
    · exact h
    · rw [h, Shader_3_2.setParameter_Texture_eq]
  subst h2
  subst hloc
  constructor
  · rintro ⟨old, hold⟩
    rw [Shader_2.setParameter_Texture_replaced locate maxUnits name texture s hprog hfound old hold]
    refine ⟨rfl, TextureTable.size_setSecond _ _ _, ?_, ?_⟩
    · exact TextureTable.find_setSecond_self _ _ _ (by simp [hold])
    · intro other ho
      exact TextureTable.find_setSecond_other _ _ _ _ ho
  · intro hnone hroom
    rw [Shader_2.setParameter_Texture_inserted locate maxUnits name texture s hprog hfound hnone
      (not_le.mpr hroom)]
    refine ⟨rfl, TextureTable.assign_perm_of_find_none _ _ _ hnone,
      TextureTable.size_assign_of_find_none _ _ _ hnone,
      TextureTable.find_assign_self _ _ _, ?_⟩
    intro other ho
    exact TextureTable.find_assign_other _ _ _ _ ho

/-- Witness for C5: location `1` is rebound while the single unit is taken,
and location `3` is added when three units exist. -/
theorem texture_binding_postcondition_witness :
    (State.oneTexture.m_shaderProgram ≠ 0 ∧ sampleLocate 7 "a" = 1 ∧
      State.oneTexture.m_textures.find 1 = some 9 ∧
      (Shader_2.setParameter_Texture sampleLocate 1 "a" 5 State.oneTexture).errLog = [] ∧
      (Shader_2.setParameter_Texture sampleLocate 1 "a" 5 State.oneTexture).m_textures.size = 1 ∧
      (Shader_2.setParameter_Texture sampleLocate 1 "a" 5 State.oneTexture).m_textures.find 1
        = some 5) ∧
    (sampleLocate 7 "bbb" = 3 ∧ State.oneTexture.m_textures.find 3 = none ∧
      wrapSizeT (State.oneTexture.m_textures.size + 1) < toSizeT 3 ∧
      (Shader_3_2.setParameter_Texture sampleLocate 3 "bbb" 6 State.oneTexture).m_textures.size
        = 2 ∧
      (Shader_3_2.setParameter_Texture sampleLocate 3 "bbb" 6 State.oneTexture).m_textures.find 3
        = some 6 ∧
      (Shader_3_2.setParameter_Texture sampleLocate 3 "bbb" 6 State.oneTexture).m_textures.find 1
        = some 9) := by
  have ha : sampleLocate 7 "a" = 1 := by decide
  have hb : sampleLocate 7 "bbb" = 3 := by decide
  have hroom : wrapSizeT (State.oneTexture.m_textures.size + 1) < toSizeT 3 := by decide
  have h1 := (texture_binding_postcondition Shader_2.setParameter_Texture (Or.inl rfl)
    sampleLocate 1 "a" 5 State.oneTexture 1 (by decide) ha (by decide)).1 ⟨9, rfl⟩
  have h2 := (texture_binding_postcondition Shader_3_2.setParameter_Texture (Or.inr rfl)
    sampleLocate 3 "bbb" 6 State.oneTexture 3 (by decide) hb (by decide)).2 rfl hroom
  exact ⟨⟨by decide, ha, rfl, h1.1, h1.2.1, h1.2.2.1⟩,
    ⟨hb, rfl, hroom, h2.2.2.1, h2.2.2.2.1, (h2.2.2.2.2 1 (by decide)).trans rfl⟩⟩

/-- C6: for a shader with a valid program, in `Shader_2` and in `Shader_3_2`,
when `name` is found at a location that is not yet a key of `m_textures` and
`m_textures.size() + 1 >= static_cast<std::size_t>(maxUnits)`, the call
`setParameter(name, texture)` writes the "all available texture units are
used" message and leaves `m_textures` and `m_currentTexture` as they were. -/
theorem texture_exhaustion_reported
    (setTexture : (Nat → String → Int) → Int → String → Texture → State → State)
    (hset : setTexture = Shader_2.setParameter_Texture ∨
            setTexture = Shader_3_2.setParameter_Texture)
    (locate : Nat → String → Int) (maxUnits : Int) (name : String) (texture : Texture)
    (s : State)
    (hprog : s.m_shaderProgram ≠ 0) (hfound : locate s.m_shaderProgram name ≠ -1)
    (hnew : s.m_textures.find (locate s.m_shaderProgram name) = none)
    (hfull : wrapSizeT (s.m_textures.size + 1) ≥ toSizeT maxUnits) :
    (setTexture locate maxUnits name texture s).errLog =
      s.errLog ++ ["Impossible to use texture \"" ++ name ++
        "\" for shader: all available texture units are used"] ∧
    (setTexture locate maxUnits name texture s).m_textures = s.m_textures ∧
    (setTexture locate maxUnits name texture s).m_currentTexture = s.m_currentTexture := by
  have h2 : setTexture = Shader_2.setParameter_Texture := by
    rcases hset with h | h
    · exact h
    · rw [h, Shader_3_2.setParameter_Texture_eq]
  subst h2
  rw [Shader_2.setParameter_Texture_exhausted locate maxUnits name texture s hprog hfound hnew hfull]
  exact ⟨rfl, rfl, rfl⟩

/-- Witness for C6: two units, one entry, and a binding at a new location. -/
theorem texture_exhaustion_reported_witness :
    State.oneTexture.m_shaderProgram ≠ 0 ∧ sampleLocate 7 "bbb" ≠ -1 ∧
    State.oneTexture.m_textures.find (sampleLocate 7 "bbb") = none ∧
    wrapSizeT (State.oneTexture.m_textures.size + 1) ≥ toSizeT 2 ∧
    (Shader_2.setParameter_Texture sampleLocate 2 "bbb" 6 State.oneTexture).errLog =
      [] ++ ["Impossible to use texture \"" ++ "bbb" ++
        "\" for shader: all available texture units are used"] ∧
    (Shader_2.setParameter_Texture sampleLocate 2 "bbb" 6 State.oneTexture).m_textures
      = [(1, 9)] ∧
    (Shader_2.setParameter_Texture sampleLocate 2 "bbb" 6 State.oneTexture).m_currentTexture
      = -1 :=
  ⟨by decide, by decide, by decide, by decide,
   texture_exhaustion_reported Shader_2.setParameter_Texture (Or.inl rfl) sampleLocate 2 "bbb" 6
     State.oneTexture (by decide) (by decide) (by decide) (by decide)⟩

/-- C7: for a shader with a valid program and a name whose location query
answers `-1`, in `Shader_2` and in `Shader_3_2`: each value setter (one to
four floats, transform) only enables the program, queries the location,
writes the one message `Parameter "<name>" not found in shader` and enables
the previous program again, so no uniform is written; the texture setter only
queries the location and writes the one message
`Texture "<name>" not found in shader`, so `m_textures` is unchanged. -/
theorem missing_uniform_reported (locate : Nat → String → Int) (name : String) (s : State)
    (hprog : s.m_shaderProgram ≠ 0) (hmissing : locate s.m_shaderProgram name = -1)
    (x y z w : ℚ) (transform : Transform) (maxUnits : Int) (texture : Texture) :
    let reported : State :=
      { s with
        glCalls := s.glCalls ++
          [GLCall.getHandle, GLCall.useProgramObject s.m_shaderProgram,
           GLCall.getUniformLocation s.m_shaderProgram name,
           GLCall.useProgramObject s.boundProgram],
        errLog := s.errLog ++ ["Parameter \"" ++ name ++ "\" not found in shader"] }
    let reportedTexture : State :=
      { s with
        glCalls := s.glCalls ++ [GLCall.getUniformLocation s.m_shaderProgram name],
        errLog := s.errLog ++ ["Texture \"" ++ name ++ "\" not found in shader"] }
    (Shader_2.setParameter_float locate name x s = reported ∧
     Shader_2.setParameter_float2 locate name x y s = reported ∧
     Shader_2.setParameter_float3 locate name x y z s = reported ∧
     Shader_2.setParameter_float4 locate name x y z w s = reported ∧
     Shader_2.setParameter_Transform locate name transform s = reported ∧
     Shader_2.setParameter_Texture locate maxUnits name texture s = reportedTexture) ∧
    (Shader_3_2.setParameter_float locate name x s = reported ∧
     Shader_3_2.setParameter_float2 locate name x y s = reported ∧
     Shader_3_2.setParameter_float3 locate name x y z s = reported ∧
     Shader_3_2.setParameter_float4 locate name x y z w s = reported ∧
     Shader_3_2.setParameter_Transform locate name transform s = reported ∧
     Shader_3_2.setParameter_Texture locate maxUnits name texture s = reportedTexture) := by
  intro reported reportedTexture
  have hs : ({ s with boundProgram := s.boundProgram } : State) = s := rfl
  refine ⟨⟨?_, ?_, ?_, ?_, ?_, ?_⟩, ⟨?_, ?_, ?_, ?_, ?_, ?_⟩⟩ <;>
    simp [Shader_2.setParameter_float, Shader_2.setParameter_float2,
      Shader_2.setParameter_float3, Shader_2.setParameter_float4,
      Shader_2.setParameter_Transform, Shader_2.setParameter_Texture,
      Shader_3_2.setParameter_float, Shader_3_2.setParameter_float2,
      Shader_3_2.setParameter_float3, Shader_3_2.setParameter_float4,
      Shader_3_2.setParameter_Transform, Shader_3_2.setParameter_Texture,
      glGetHandleARB, glUseProgramObjectARB, glGetUniformLocationARB, err,
      parameterNotFound, textureNotFound, hprog, hmissing, reported, reportedTexture]

/-- Witness for C7: the name `?x` is not found in the compiled shader. -/
theorem missing_uniform_reported_witness :
    State.compiled.m_shaderProgram ≠ 0 ∧
    sampleLocate State.compiled.m_shaderProgram "?x" = -1 ∧
    (Shader_2.setParameter_float sampleLocate "?x" 5 State.compiled).errLog
      = [] ++ ["Parameter \"" ++ "?x" ++ "\" not found in shader"] ∧
    (Shader_3_2.setParameter_Texture sampleLocate 4 "?x" 8 State.compiled).m_textures = [] :=
  ⟨by decide, by decide,
   congrArg State.errLog
     (missing_uniform_reported sampleLocate "?x" State.compiled (by decide) (by decide)
       5 0 0 0 ⟨[]⟩ 4 8).1.1,
   congrArg State.m_textures
     (missing_uniform_reported sampleLocate "?x" State.compiled (by decide) (by decide)
       5 0 0 0 ⟨[]⟩ 4 8).2.2.2.2.2.2⟩

/-- C8: in `Shader_2` and in `Shader_3_2`, `setParameter(name, color)` is the
four-float setter applied to `r / 255`, `g / 255`, `b / 255`, `a / 255`; with
exact division every such value lies in `[0, 1]`, component `0` gives `0`,
component `255` gives `1`, and a larger component gives a larger value. -/
theorem color_normalised (locate : Nat → String → Int) (name : String) (color : Color)
    (s : State) :
    let norm : Fin 256 → ℚ := fun c => (c.val : ℚ) / 255
    Shader_2.setParameter_Color locate name color s =
      Shader_2.setParameter_float4 locate name
        (norm color.r) (norm color.g) (norm color.b) (norm color.a) s ∧
    Shader_3_2.setParameter_Color locate name color s =
      Shader_3_2.setParameter_float4 locate name
        (norm color.r) (norm color.g) (norm color.b) (norm color.a) s ∧
    (∀ c, 0 ≤ norm c ∧ norm c ≤ 1) ∧ norm 0 = 0 ∧ norm 255 = 1 ∧
    (∀ c d, c < d → norm c < norm d) := by
  intro norm
  refine ⟨rfl, rfl, ?_, ?_, ?_, ?_⟩
  · intro c
    have h : (c.val : ℚ) ≤ 255 := by
      have := c.isLt
      exact_mod_cast Nat.lt_succ_iff.mp this
    have h0 : (0 : ℚ) ≤ (c.val : ℚ) := by exact_mod_cast Nat.zero_le _
    constructor
    · simp only [norm]; positivity
    · simp only [norm]; rw [div_le_one (by norm_num)]; exact h
  · simp [norm]
  · simp only [norm]
    have : ((255 : Fin 256).val : ℚ) = 255 := by rfl
    rw [this]; norm_num
  · intro c d hcd
    simp only [norm]
    have : (c.val : ℚ) < (d.val : ℚ) := by exact_mod_cast hcd
    exact div_lt_div_of_pos_right this (by norm_num)

/-- Counterexample for C9: for `sf::Color(255, 125, 0, 255)` the uniform written
is `(1, 25/51, 0, 1)`, not `(1, 1/2, 0, 1)`. -/
theorem documented_color_not_half :
    (Shader_3_2.setParameter_Color sampleLocate "color" ⟨255, 125, 0, 255⟩
        State.compiled).uniforms 7 5 = some (UniformValue.float4 1 (25 / 51) 0 1) ∧
    (Shader_3_2.setParameter_Color sampleLocate "color" ⟨255, 125, 0, 255⟩
        State.compiled).uniforms 7 5 ≠ some (UniformValue.float4 1 (1 / 2) 0 1) ∧
    (Shader_2.setParameter_Color sampleLocate "color" ⟨255, 125, 0, 255⟩
        State.compiled).uniforms 7 5 ≠ some (UniformValue.float4 1 (1 / 2) 0 1) := by
  have hfront : ¬ ("color".front = '?') := by decide
  have hlen : "color".length = 5 := by decide
  have h : (Shader_3_2.setParameter_Color sampleLocate "color" ⟨255, 125, 0, 255⟩
        State.compiled).uniforms 7 5 = some (UniformValue.float4 1 (25 / 51) 0 1) := by
    simp [Shader_3_2.setParameter_Color, Shader_3_2.setParameter_float4, State.compiled,
      State.initial, glGetHandleARB, glUseProgramObjectARB, glGetUniformLocationARB,
      glUniform4fARB, writeUniform, sampleLocate, hfront, hlen]
    have h255 : ((255 : Fin 256) : ℕ) = 255 := rfl
    have h125 : ((125 : Fin 256) : ℕ) = 125 := rfl
    rw [h255, h125]
    norm_num
  have h2 : Shader_2.setParameter_Color = Shader_3_2.setParameter_Color := rfl
  refine ⟨h, ?_, ?_⟩
  · rw [h]
    norm_num
  · rw [h2, h]
    norm_num

/-- C9 (amended): `setParameter(name, sf::Color(255, 125, 0, 255))` passes
`1`, `25/51`, `0` and `1` to the four-float setter; the second component is
`1/102` below the documented `0.5`. -/
theorem documented_color_components (locate : Nat → String → Int) (name : String)
    (s : State) :
    Shader_2.setParameter_Color locate name ⟨255, 125, 0, 255⟩ s =
      Shader_2.setParameter_float4 locate name 1 (25 / 51) 0 1 s ∧
    Shader_3_2.setParameter_Color locate name ⟨255, 125, 0, 255⟩ s =
      Shader_3_2.setParameter_float4 locate name 1 (25 / 51) 0 1 s ∧
    (1 / 2 - 25 / 51 : ℚ) = 1 / 102 := by
  have h255 : (((255 : Fin 256) : ℕ) : ℚ) / 255 = 1 := by
    have : ((255 : Fin 256) : ℕ) = 255 := rfl
    rw [this]; norm_num
  have h125 : (((125 : Fin 256) : ℕ) : ℚ) / 255 = 25 / 51 := by
    have : ((125 : Fin 256) : ℕ) = 125 := rfl
    rw [this]; norm_num
  have h0 : (((0 : Fin 256) : ℕ) : ℚ) / 255 = 0 := by simp
  refine ⟨?_, ?_, by norm_num⟩
  · simp only [Shader_2.setParameter_Color, h255, h125, h0]
  · simp only [Shader_3_2.setParameter_Color, h255, h125, h0]

/-- C10: for a shader with a valid program and a name found at a location
other than `-1`, in `Shader_2` and in `Shader_3_2`: `setParameter(name,
CurrentTexture)` only queries the location and stores it in
`m_currentTexture` (the table, the uniforms and the log are unchanged), and a
later such call with another found name leaves that name's location there. -/
theorem current_texture_sentinel (locate : Nat → String → Int) (name other : String)
    (s : State) (hprog : s.m_shaderProgram ≠ 0)
    (hfound : locate s.m_shaderProgram name ≠ -1)
    (hother : locate s.m_shaderProgram other ≠ -1) :
    (Shader_2.setParameter_CurrentTexture locate name s =
      { s with
        m_currentTexture := locate s.m_shaderProgram name,
        glCalls := s.glCalls ++ [GLCall.getUniformLocation s.m_shaderProgram name] } ∧
     (Shader_2.setParameter_CurrentTexture locate other
        (Shader_2.setParameter_CurrentTexture locate name s)).m_currentTexture
       = locate s.m_shaderProgram other) ∧
    (Shader_3_2.setParameter_CurrentTexture locate name s =
      { s with
        m_currentTexture := locate s.m_shaderProgram name,
        glCalls := s.glCalls ++ [GLCall.getUniformLocation s.m_shaderProgram name] } ∧
     (Shader_3_2.setParameter_CurrentTexture locate other
        (Shader_3_2.setParameter_CurrentTexture locate name s)).m_currentTexture
       = locate s.m_shaderProgram other) := by
  refine ⟨⟨?_, ?_⟩, ⟨?_, ?_⟩⟩ <;>
    simp [Shader_2.setParameter_CurrentTexture, Shader_3_2.setParameter_CurrentTexture,
      glGetUniformLocationARB, err, hprog, hfound, hother]

/-- Witness for C10: `tex` sits at location `3` and `other` at location `5`. -/
theorem current_texture_sentinel_witness :
    State.compiled.m_shaderProgram ≠ 0 ∧
    sampleLocate State.compiled.m_shaderProgram "tex" ≠ -1 ∧
    sampleLocate State.compiled.m_shaderProgram "other" ≠ -1 ∧
    (Shader_2.setParameter_CurrentTexture sampleLocate "tex" State.compiled).m_currentTexture
      = 3 ∧
    (Shader_2.setParameter_CurrentTexture sampleLocate "other"
      (Shader_2.setParameter_CurrentTexture sampleLocate "tex" State.compiled)).m_currentTexture
      = 5 :=
  ⟨by decide, by decide, by decide,
   (congrArg State.m_currentTexture
     (current_texture_sentinel sampleLocate "tex" "other" State.compiled
       (by decide) (by decide) (by decide)).1.1).trans (by decide),
   ((current_texture_sentinel sampleLocate "tex" "other" State.compiled
       (by decide) (by decide) (by decide)).1.2).trans (by decide)⟩

/-- Counterexample for C11: with eight texture units and seven entries in the
table (fewer than eight), a binding at a new, found location is refused: the
table is unchanged and the "all available texture units are used" message is
written. -/
theorem exhaustion_before_all_units_used :
    (1 : Int) ≤ 8 ∧ State.sevenTextures.m_shaderProgram ≠ 0 ∧
    (State.sevenTextures.m_textures.size : Int) < 8 ∧
    sampleLocate State.sevenTextures.m_shaderProgram "overlay8" = 8 ∧
    State.sevenTextures.m_textures.find 8 = none ∧
    (Shader_2.setParameter_Texture sampleLocate 8 "overlay8" 18 State.sevenTextures).m_textures
      = State.sevenTextures.m_textures ∧
    (Shader_2.setParameter_Texture sampleLocate 8 "overlay8" 18 State.sevenTextures).errLog
      = ["Impossible to use texture \"overlay8\" for shader: all available texture units are used"] ∧
    (Shader_3_2.setParameter_Texture sampleLocate 8 "overlay8" 18 State.sevenTextures).m_textures
      = State.sevenTextures.m_textures ∧
    (Shader_3_2.setParameter_Texture sampleLocate 8 "overlay8" 18 State.sevenTextures).errLog
      = ["Impossible to use texture \"overlay8\" for shader: all available texture units are used"] := by
  have hloc : sampleLocate State.sevenTextures.m_shaderProgram "overlay8" = 8 := by decide
  have h := Shader_2.setParameter_Texture_exhausted sampleLocate 8 "overlay8" 18
    State.sevenTextures (by decide) (by decide) (by decide) (by decide)
  refine ⟨by decide, by decide, by decide, hloc, by decide, ?_, ?_, ?_, ?_⟩
  · rw [h]; rfl
  · rw [h]; rfl
  · rw [Shader_3_2.setParameter_Texture_eq, h]; rfl
  · rw [Shader_3_2.setParameter_Texture_eq, h]; rfl

/-- C11 (amended): for `1 ≤ maxUnits` (a `GLint`) and a shader with a valid
program, in `Shader_2` and in `Shader_3_2`, `setParameter(name, texture)` for
a found name at a new location is accepted (entry added, nothing logged) when
the table holds fewer than `maxUnits - 1` entries, and is refused with the
"all available texture units are used" message, the table unchanged, when the
table holds `maxUnits - 1` entries or more. -/
theorem exhaustion_threshold
    (setTexture : (Nat → String → Int) → Int → String → Texture → State → State)
    (hset : setTexture = Shader_2.setParameter_Texture ∨
            setTexture = Shader_3_2.setParameter_Texture)
    (locate : Nat → String → Int) (maxUnits : Int) (name : String) (texture : Texture)
    (s : State)
    (hmin : 1 ≤ maxUnits) (hglint : maxUnits < 2 ^ 31)
    (hsize : s.m_textures.size + 1 < 2 ^ 64)
    (hprog : s.m_shaderProgram ≠ 0) (hfound : locate s.m_shaderProgram name ≠ -1)
    (hnew : s.m_textures.find (locate s.m_shaderProgram name) = none) :
    ((s.m_textures.size : Int) < maxUnits - 1 →
      (setTexture locate maxUnits name texture s).errLog = s.errLog ∧
      (setTexture locate maxUnits name texture s).m_textures.find
        (locate s.m_shaderProgram name) = some texture ∧
      (setTexture locate maxUnits name texture s).m_textures.size = s.m_textures.size + 1) ∧
    (maxUnits - 1 ≤ (s.m_textures.size : Int) →
      (setTexture locate maxUnits name texture s).errLog =
        s.errLog ++ ["Impossible to use texture \"" ++ name ++
          "\" for shader: all available texture units are used"] ∧
      (setTexture locate maxUnits name texture s).m_textures = s.m_textures) := by
  have h2 : setTexture = Shader_2.setParameter_Texture := by
    rcases hset with h | h
    · exact h
    · rw [h, Shader_3_2.setParameter_Texture_eq]
  subst h2
  have hcast : (toSizeT maxUnits : Int) = maxUnits := by
    unfold toSizeT
    omega
  have hwrap : wrapSizeT (s.m_textures.size + 1) = s.m_textures.size + 1 :=
    Nat.mod_eq_of_lt hsize
  constructor
  · intro hroom
    have h4 : ¬ wrapSizeT (s.m_textures.size + 1) ≥ toSizeT maxUnits := by
      rw [hwrap]; omega
    rw [Shader_2.setParameter_Texture_inserted locate maxUnits name texture s hprog hfound hnew h4]
    exact ⟨rfl, TextureTable.find_assign_self _ _ _,
      TextureTable.size_assign_of_find_none _ _ _ hnew⟩
  · intro hfull
    have h4 : wrapSizeT (s.m_textures.size + 1) ≥ toSizeT maxUnits := by
      rw [hwrap]; omega
    rw [Shader_2.setParameter_Texture_exhausted locate maxUnits name texture s hprog hfound hnew h4]
    exact ⟨rfl, rfl⟩

/-- Witness for C11 (amended): seven entries are one too many for eight units
and leave room when there are nine. -/
theorem exhaustion_threshold_witness :
    ((1 : Int) ≤ 8 ∧ (8 : Int) < 2 ^ 31 ∧ State.sevenTextures.m_textures.size + 1 < 2 ^ 64 ∧
      State.sevenTextures.m_shaderProgram ≠ 0 ∧
      sampleLocate State.sevenTextures.m_shaderProgram "overlay8" ≠ -1 ∧
      State.sevenTextures.m_textures.find
        (sampleLocate State.sevenTextures.m_shaderProgram "overlay8") = none ∧
      (8 : Int) - 1 ≤ (State.sevenTextures.m_textures.size : Int) ∧
      (Shader_2.setParameter_Texture sampleLocate 8 "overlay8" 18
        State.sevenTextures).m_textures = State.sevenTextures.m_textures) ∧
    ((State.sevenTextures.m_textures.size : Int) < 9 - 1 ∧
      (Shader_3_2.setParameter_Texture sampleLocate 9 "overlay8" 18
        State.sevenTextures).m_textures.size = 7 + 1) :=
  ⟨⟨by decide, by decide, by decide, by decide, by decide, by decide, by decide,
    ((exhaustion_threshold Shader_2.setParameter_Texture (Or.inl rfl) sampleLocate 8
      "overlay8" 18 State.sevenTextures (by decide) (by decide) (by decide) (by decide)
      (by decide) (by decide)).2 (by decide)).2⟩,
   ⟨by decide,
    ((exhaustion_threshold Shader_3_2.setParameter_Texture (Or.inr rfl) sampleLocate 9
      "overlay8" 18 State.sevenTextures (by decide) (by decide) (by decide) (by decide)
      (by decide) (by decide)).1 (by decide)).2.2⟩⟩

/-- C12: in `Shader_2` and in `Shader_3_2`, `setParameter(name, Vector2f(x, y))`
gives the same resulting state (shader fields, OpenGL state and calls, log) as
`setParameter(name, x, y)`, and `setParameter(name, Vector3f(x, y, z))` the
same as `setParameter(name, x, y, z)`. -/
theorem vector_overloads_are_component_overloads (locate : Nat → String → Int)
    (name : String) (x y z : ℚ) (s : State) :
    Shader_2.setParameter_Vector2f locate name ⟨x, y⟩ s
      = Shader_2.setParameter_float2 locate name x y s ∧
    Shader_2.setParameter_Vector3f locate name ⟨x, y, z⟩ s
      = Shader_2.setParameter_float3 locate name x y z s ∧
    Shader_3_2.setParameter_Vector2f locate name ⟨x, y⟩ s
      = Shader_3_2.setParameter_float2 locate name x y s ∧
    Shader_3_2.setParameter_Vector3f locate name ⟨x, y, z⟩ s
      = Shader_3_2.setParameter_float3 locate name x y z s :=
  ⟨rfl, rfl, rfl, rfl⟩

/-- C13: when `m_shaderProgram` is `0`, every `setParameter` overload of
`Shader_2` and of `Shader_3_2` returns the state it was given: no OpenGL
call, no message, and `m_textures`, `m_currentTexture` and the program in use
as before. -/
theorem no_program_no_effect (locate : Nat → String → Int) (name : String) (s : State)
    (hnone : s.m_shaderProgram = 0)
    (x y z w : ℚ) (v2 : Vector2f) (v3 : Vector3f) (color : Color) (transform : Transform)
    (maxUnits : Int) (texture : Texture) :
    (Shader_2.setParameter_float locate name x s = s ∧
     Shader_2.setParameter_float2 locate name x y s = s ∧
     Shader_2.setParameter_float3 locate name x y z s = s ∧
     Shader_2.setParameter_float4 locate name x y z w s = s ∧
     Shader_2.setParameter_Vector2f locate name v2 s = s ∧
     Shader_2.setParameter_Vector3f locate name v3 s = s ∧
     Shader_2.setParameter_Color locate name color s = s ∧
     Shader_2.setParameter_Transform locate name transform s = s ∧
     Shader_2.setParameter_Texture locate maxUnits name texture s = s ∧
     Shader_2.setParameter_CurrentTexture locate name s = s) ∧
    (Shader_3_2.setParameter_float locate name x s = s ∧
     Shader_3_2.setParameter_float2 locate name x y s = s ∧
     Shader_3_2.setParameter_float3 locate name x y z s = s ∧
     Shader_3_2.setParameter_float4 locate name x y z w s = s ∧
     Shader_3_2.setParameter_Vector2f locate name v2 s = s ∧
     Shader_3_2.setParameter_Vector3f locate name v3 s = s ∧
     Shader_3_2.setParameter_Color locate name color s = s ∧
     Shader_3_2.setParameter_Transform locate name transform s = s ∧
     Shader_3_2.setParameter_Texture locate maxUnits name texture s = s ∧
     Shader_3_2.setParameter_CurrentTexture locate name s = s) := by
  refine ⟨⟨?_, ?_, ?_, ?_, ?_, ?_, ?_, ?_, ?_, ?_⟩, ⟨?_, ?_, ?_, ?_, ?_, ?_, ?_, ?_, ?_, ?_⟩⟩ <;>
    simp [Shader_2.setParameter_float, Shader_2.setParameter_float2,
      Shader_2.setParameter_float3, Shader_2.setParameter_float4,
      Shader_2.setParameter_Vector2f, Shader_2.setParameter_Vector3f,
      Shader_2.setParameter_Color, Shader_2.setParameter_Transform,
      Shader_2.setParameter_Texture, Shader_2.setParameter_CurrentTexture,
      Shader_3_2.setParameter_float, Shader_3_2.setParameter_float2,
      Shader_3_2.setParameter_float3, Shader_3_2.setParameter_float4,
      Shader_3_2.setParameter_Vector2f, Shader_3_2.setParameter_Vector3f,
      Shader_3_2.setParameter_Color, Shader_3_2.setParameter_Transform,
      Shader_3_2.setParameter_Texture, Shader_3_2.setParameter_CurrentTexture, hnone]

/-- Witness for C13: the state before any program is compiled, in which the
name `tex` would be found. -/
theorem no_program_no_effect_witness :
    State.initial.m_shaderProgram = 0 ∧
    Shader_2.setParameter_float sampleLocate "tex" 5 State.initial = State.initial ∧
    Shader_2.setParameter_Color sampleLocate "tex" ⟨255, 128, 0, 255⟩ State.initial
      = State.initial ∧
    Shader_2.setParameter_Texture sampleLocate 8 "tex" 4 State.initial = State.initial ∧
    Shader_3_2.setParameter_CurrentTexture sampleLocate "tex" State.initial = State.initial :=
  ⟨rfl,
   (no_program_no_effect sampleLocate "tex" State.initial rfl 5 0 0 0 ⟨0, 0⟩ ⟨0, 0, 0⟩
     ⟨255, 128, 0, 255⟩ ⟨[]⟩ 8 4).1.1,
   (no_program_no_effect sampleLocate "tex" State.initial rfl 5 0 0 0 ⟨0, 0⟩ ⟨0, 0, 0⟩
     ⟨255, 128, 0, 255⟩ ⟨[]⟩ 8 4).1.2.2.2.2.2.2.1,
   (no_program_no_effect sampleLocate "tex" State.initial rfl 5 0 0 0 ⟨0, 0⟩ ⟨0, 0, 0⟩
     ⟨255, 128, 0, 255⟩ ⟨[]⟩ 8 4).1.2.2.2.2.2.2.2.2.1,
   (no_program_no_effect sampleLocate "tex" State.initial rfl 5 0 0 0 ⟨0, 0⟩ ⟨0, 0, 0⟩
     ⟨255, 128, 0, 255⟩ ⟨[]⟩ 8 4).2.2.2.2.2.2.2.2.2.2⟩

/-- C14: with the OpenGL state explicit, for every name, value and state, in
`Shader_2` and in `Shader_3_2`: the one- to four-float and transform setters
end with the program in use that was in use before, change no uniform other
than the one of `m_shaderProgram` at the location of the name, and make at
most one uniform write; the texture and current-texture setters leave the
program in use and every uniform as they were and make no uniform write. -/
theorem bound_program_restored (locate : Nat → String → Int) (name : String)
    (x y z w : ℚ) (transform : Transform) (maxUnits : Int) (texture : Texture) (s : State) :
    (ValueSetterFrame locate name s (Shader_2.setParameter_float locate name x s) ∧
     ValueSetterFrame locate name s (Shader_2.setParameter_float2 locate name x y s) ∧
     ValueSetterFrame locate name s (Shader_2.setParameter_float3 locate name x y z s) ∧
     ValueSetterFrame locate name s (Shader_2.setParameter_float4 locate name x y z w s) ∧
     ValueSetterFrame locate name s (Shader_2.setParameter_Transform locate name transform s) ∧
     TextureSetterFrame s (Shader_2.setParameter_Texture locate maxUnits name texture s) ∧
     TextureSetterFrame s (Shader_2.setParameter_CurrentTexture locate name s)) ∧
    (ValueSetterFrame locate name s (Shader_3_2.setParameter_float locate name x s) ∧
     ValueSetterFrame locate name s (Shader_3_2.setParameter_float2 locate name x y s) ∧
     ValueSetterFrame locate name s (Shader_3_2.setParameter_float3 locate name x y z s) ∧
     ValueSetterFrame locate name s (Shader_3_2.setParameter_float4 locate name x y z w s) ∧
     ValueSetterFrame locate name s (Shader_3_2.setParameter_Transform locate name transform s) ∧
     TextureSetterFrame s (Shader_3_2.setParameter_Texture locate maxUnits name texture s) ∧
     TextureSetterFrame s (Shader_3_2.setParameter_CurrentTexture locate name s)) :=
  ⟨⟨valueSetterFrame_of_shape locate name s (UniformValue.float1 x)
      (fun l => GLCall.uniform1f l x),
    valueSetterFrame_of_shape locate name s (UniformValue.float2 x y)
      (fun l => GLCall.uniform2f l x y),
    valueSetterFrame_of_shape locate name s (UniformValue.float3 x y z)
      (fun l => GLCall.uniform3f l x y z),
    valueSetterFrame_of_shape locate name s (UniformValue.float4 x y z w)
      (fun l => GLCall.uniform4f l x y z w),
    valueSetterFrame_of_shape locate name s (UniformValue.matrix4 transform.getMatrix)
      (fun l => GLCall.uniformMatrix4fv l transform.getMatrix),
    Shader_2.setParameter_Texture_frame locate maxUnits name texture s,
    Shader_2.setParameter_CurrentTexture_frame locate name s⟩,
   ⟨valueSetterFrame_of_shape locate name s (UniformValue.float1 x)
      (fun l => GLCall.uniform1f l x),
    valueSetterFrame_of_shape locate name s (UniformValue.float2 x y)
      (fun l => GLCall.uniform2f l x y),
    valueSetterFrame_of_shape locate name s (UniformValue.float3 x y z)
      (fun l => GLCall.uniform3f l x y z),
    valueSetterFrame_of_shape locate name s (UniformValue.float4 x y z w)
      (fun l => GLCall.uniform4f l x y z w),
    valueSetterFrame_of_shape locate name s (UniformValue.matrix4 transform.getMatrix)
      (fun l => GLCall.uniformMatrix4fv l transform.getMatrix),
    Shader_2.setParameter_Texture_frame locate maxUnits name texture s,
    Shader_2.setParameter_CurrentTexture_frame locate name s⟩⟩

/-- C15: every `setParameter` overload of `Shader_2` is the same function as
the overload of `Shader_3_2` with the same parameters: from equal shader
state, OpenGL state, unit count and arguments they give equal `m_textures`,
`m_currentTexture`, uniforms, program in use, OpenGL calls and log. -/
theorem api_variants_agree :
    Shader_2.setParameter_float = Shader_3_2.setParameter_float ∧
    Shader_2.setParameter_float2 = Shader_3_2.setParameter_float2 ∧
    Shader_2.setParameter_float3 = Shader_3_2.setParameter_float3 ∧
    Shader_2.setParameter_float4 = Shader_3_2.setParameter_float4 ∧
    Shader_2.setParameter_Vector2f = Shader_3_2.setParameter_Vector2f ∧
    Shader_2.setParameter_Vector3f = Shader_3_2.setParameter_Vector3f ∧
    Shader_2.setParameter_Color = Shader_3_2.setParameter_Color ∧
    Shader_2.setParameter_Transform = Shader_3_2.setParameter_Transform ∧
    Shader_2.setParameter_Texture = Shader_3_2.setParameter_Texture ∧
    Shader_2.setParameter_CurrentTexture = Shader_3_2.setParameter_CurrentTexture :=
  ⟨rfl, rfl, rfl, rfl, rfl, rfl, rfl, rfl, rfl, rfl⟩

end SFML
